import Mathlib

/-!
Verification of the purpledove-payment virtual-wallet payment engine.

This file gives a shallow embedding of the Python sources
(`virtual_payment.py`, `banksb.py`, `transaction_history.py`,
`virtual_wallet.py`) and proves properties of the embedded operations.
Field values that Python represents as possibly-`None` strings are
`Option String`; monetary values are `ℚ`; external HTTP calls and the
PIN-decryption call are oracles passed as explicit parameters; Frappe
document tables are association lists.
-/

namespace Purpledove

/-- Python truthiness for an optional string: `None` and `""` are falsy. -/
def pyTruthy : Option String → Bool
  | none => false
  | some s => s ≠ ""

/-- Python `str` applied to an optional string: `str(None)` is `"None"`. -/
def pyStr : Option String → String
  | none => "None"
  | some s => s

/-- Python `a or b` on optional strings: `a` when truthy, else `b`. -/
def pyOr (a b : Option String) : Option String :=
  if pyTruthy a then a else b

/-- Python `str.strip()`: drop whitespace from both ends. -/
def pyStrip (s : String) : String :=
  String.mk
    (((s.data.dropWhile Char.isWhitespace).reverse.dropWhile
      Char.isWhitespace).reverse)

/-- Python `str.upper()` on the ASCII codes this system uses. -/
def pyUpper (s : String) : String :=
  String.mk (s.data.map Char.toUpper)

/-- A `Virtual Wallet` document: the fields read by the payment engine. -/
structure WalletDoc where
  name : String
  balance : Option ℚ
  account_number : Option String
  role : Option String
deriving DecidableEq

/-- Outcome of `PaymentPin.get_decrypted_pin()`: the call can raise, or
return a value that may itself be `None` or empty. -/
inductive DecryptOutcome where
  | raised
  | value (v : Option String)
deriving DecidableEq

/-- A `Payment Pin` document together with the outcome its
`get_decrypted_pin` call would produce (that method lives outside the
sources under verification, so it enters the model as data). -/
structure PaymentPin where
  name : String
  wallet : String
  pin : Option String
  decryptedPin : DecryptOutcome
deriving DecidableEq

/-- A `BanksB` document: `name` is the document id. -/
structure BankRecord where
  name : String
  bank_name : Option String
  bank_code : Option String
deriving DecidableEq

/-- The payload extracted from a successful transfer response
(`response_json.get("data", response_json)`). -/
structure TransferData where
  transactionReference : Option String
  amount : Option ℚ
  destinationBankName : Option String
  destinationAccountNumber : Option String
  destinationAccountName : Option String
  sourceAccountNumber : Option String
  narration : Option String
deriving DecidableEq

/-- The fields of the `VirtualPayment` document consulted by payment
processing. -/
structure PaymentDoc where
  name : String
  amount : Option ℚ
  destination_bank : Option String
  destination_bank_code : Option String
  destination_account_number : Option String
  source_account_number : Option String
  narration : Option String
deriving DecidableEq

/-! ## Credential resolver (`VirtualPayment._get_bearer_token`) -/

/-- Embeds `_get_bearer_token`: `os.environ['LIVE_TOKEN'] or
os.environ['PAYABLE_LIVE_TOKEN']`, then `frappe.conf.live_token`, then the
`System Settings` value `live_token`; `None` when all are exhausted. -/
def get_bearer_token (envLive envPayable confLive settingsLive : Option String) :
    Option String :=
  let token := pyOr envLive envPayable
  let token := if pyTruthy token then token else none
  let token := if pyTruthy token then token else confLive
  let token := if pyTruthy token then token else settingsLive
  if pyTruthy token then token else none

/-- The claim-side resolver: the first non-empty value among the sources,
in order. -/
def firstNonEmptySource : List (Option String) → Option String
  | [] => none
  | x :: xs => if pyTruthy x then x else firstNonEmptySource xs

theorem pyTruthy_none : pyTruthy none = false := rfl

theorem ne_none_of_pyTruthy {x : Option String} (h : pyTruthy x = true) :
    ¬ x = none := by
  cases x with
  | none => simp [pyTruthy] at h
  | some s => simp

/-- C8: `_get_bearer_token` checks `LIVE_TOKEN`, then `PAYABLE_LIVE_TOKEN`,
then `frappe.conf.live_token`, then the persisted System Settings value, in
that strict order, returns the first non-empty value found, and returns
`None` exactly when every source is empty. -/
theorem C8_bearer_token_resolution (a b c d : Option String) :
    get_bearer_token a b c d = firstNonEmptySource [a, b, c, d] ∧
    (get_bearer_token a b c d = none ↔
      ∀ x ∈ [a, b, c, d], pyTruthy x = false) := by
  constructor
  · simp only [get_bearer_token, firstNonEmptySource, pyOr]
    by_cases ha : pyTruthy a <;> by_cases hb : pyTruthy b <;>
      by_cases hc : pyTruthy c <;> by_cases hd : pyTruthy d <;>
      simp [ha, hb, hc, hd, pyTruthy_none]
  · by_cases ha : pyTruthy a <;> by_cases hb : pyTruthy b <;>
      by_cases hc : pyTruthy c <;> by_cases hd : pyTruthy d <;>
      simp [get_bearer_token, pyOr, ha, hb, hc, hd, pyTruthy_none,
        ne_none_of_pyTruthy]

/-! ## Bank directory (`banksb.py` and `VirtualPayment._get_bank_code`) -/

/-- Embeds `_get_bank_code`: fetch the `BanksB` document named `bank_name`
(`frappe.get_doc` raises when the name is `None` or no document exists) and
raise when the document or its `bank_code` is falsy. -/
def get_bank_code (banks : List BankRecord) (bank_name : Option String) :
    Except String String :=
  match bank_name with
  | none => .error "Bank not found"
  | some n =>
    match banks.find? (fun b => b.name == n) with
    | none => .error "Bank not found"
    | some b =>
      match b.bank_code with
      | none => .error "Bank code not found"
      | some c => if c = "" then .error "Bank code not found" else .ok c

inductive BankSaveErr where
  | bankNameRequired
  | bankCodeRequired
  | duplicateCode (code : String)
deriving DecidableEq

/-- Embeds `BanksB.validate`: required-field checks, then the duplicate
lookup `frappe.db.get_value("BanksB", bank_code = self.bank_code and
name != self.name)`. `none` means validation passed. -/
def banksb_validate (db : List BankRecord) (b : BankRecord) :
    Option BankSaveErr :=
  if pyTruthy b.bank_name = false then some .bankNameRequired
  else if pyTruthy b.bank_code = false then some .bankCodeRequired
  else
    match db.find? (fun r => r.bank_code == b.bank_code && r.name != b.name) with
    | some _ => some (.duplicateCode (pyStr b.bank_code))
    | none => none

/-- `if field:` then apply `g` to its contents, as in `BanksB.before_save`. -/
def normField (f : Option String) (g : String → String) : Option String :=
  if pyTruthy f then f.map g else f

/-- Embeds `BanksB.before_save`: trim the bank name, trim and uppercase the
bank code. -/
def banksb_before_save (b : BankRecord) : BankRecord :=
  { b with
    bank_name := normField b.bank_name pyStrip
    bank_code := normField b.bank_code (fun s => pyUpper (pyStrip s)) }

/-- Write a document into the table: replace the row with the same document
name when one exists, else append. -/
def upsertBank (db : List BankRecord) (b : BankRecord) : List BankRecord :=
  if db.any (fun r => r.name == b.name) then
    db.map (fun r => if r.name == b.name then b else r)
  else db ++ [b]

/-- Embeds the Frappe save pipeline for a `BanksB` document: `validate`
runs first, then `before_save`, then the write. -/
def banksb_save (db : List BankRecord) (b : BankRecord) :
    Except BankSaveErr (List BankRecord) :=
  match banksb_validate db b with
  | some e => .error e
  | none => .ok (upsertBank db (banksb_before_save b))

/-- C7: saving a bank record normalizes the bank name by trimming and the
bank code by trimming and uppercasing, and fails with a duplicate-code
error whenever a different bank record already owns the same bank code; in
particular with code "100004" already registered for Bank A, saving Bank B
with code "100004" is rejected. -/
theorem C7_bank_save_normalization_and_duplicates
    (db : List BankRecord) (b : BankRecord) :
    (∀ db2, banksb_save db b = .ok db2 →
      ∃ r, r ∈ db2 ∧ r.name = b.name ∧
        r.bank_name = normField b.bank_name pyStrip ∧
        r.bank_code = normField b.bank_code (fun s => pyUpper (pyStrip s))) ∧
    (∀ r, r ∈ db → r.name ≠ b.name → r.bank_code = b.bank_code →
      pyTruthy b.bank_name = true → pyTruthy b.bank_code = true →
      banksb_save db b = .error (.duplicateCode (pyStr b.bank_code))) ∧
    (banksb_save [⟨"Bank A", some "Bank A", some "100004"⟩]
        ⟨"Bank B", some "Bank B", some "100004"⟩ =
      .error (.duplicateCode "100004")) := by
  refine ⟨?_, ?_, by rfl⟩
  · intro db2 hok
    simp only [banksb_save] at hok
    cases hval : banksb_validate db b with
    | some e => rw [hval] at hok; exact absurd hok (by simp)
    | none =>
      rw [hval] at hok
      have hdb2 : db2 = upsertBank db (banksb_before_save b) := by
        simpa using hok.symm
      subst hdb2
      refine ⟨banksb_before_save b, ?_, rfl, rfl, rfl⟩
      have hbn : (banksb_before_save b).name = b.name := rfl
      simp only [upsertBank, hbn]
      by_cases hmem : db.any (fun r => r.name == b.name) = true
      · rw [if_pos hmem]
        rcases List.any_eq_true.mp hmem with ⟨r, hr, hrname⟩
        exact List.mem_map.mpr ⟨r, hr, by simp [hrname]⟩
      · rw [if_neg hmem]
        exact List.mem_append.mpr (Or.inr (List.mem_singleton.mpr rfl))
  · intro r hr hne hcode hname hcodet
    have hfind : db.find?
        (fun x => x.bank_code == b.bank_code && x.name != b.name) ≠ none := by
      intro hn
      have := List.find?_eq_none.mp hn r hr
      simp [hcode, hne] at this
    simp only [banksb_save, banksb_validate, hname, hcodet]
    cases hf : db.find? (fun x => x.bank_code == b.bank_code && x.name != b.name) with
    | none => exact absurd hf hfind
    | some x => simp

/-! ## Wallet ledger (`validate_balance_for_wallet`,
`_update_specific_wallet_balance`) -/

def DEFAULT_WALLET_ACCOUNT : String := "9000136910"

/-- Result of `validate_balance_for_wallet`. The `passed` constructor
carries the data the source packs into its success dict; the
`insufficientFunds` constructor carries the two figures the error message
cites. -/
inductive BalanceCheck where
  | walletMissing (wallet_name : String)
  | invalidAmount
  | insufficientFunds (current requested : ℚ)
  | passed (current requested : ℚ) (wallet : WalletDoc) (account_number : String)
deriving DecidableEq

/-- Embeds `validate_balance_for_wallet`: fetch the wallet, read
`flt(balance or 0)` and `flt(self.amount or 0)`, reject non-positive
amounts, then amounts above the balance, else succeed with
`wallet.account_number or DEFAULT_WALLET_ACCOUNT`. -/
def validate_balance_for_wallet (wallets : List WalletDoc) (docAmount : Option ℚ)
    (wallet_name : String) : BalanceCheck :=
  match wallets.find? (fun w => w.name == wallet_name) with
  | none => .walletMissing wallet_name
  | some w =>
    let current_balance := w.balance.getD 0
    let payment_amount := docAmount.getD 0
    if payment_amount ≤ 0 then .invalidAmount
    else if current_balance < payment_amount then
      .insufficientFunds current_balance payment_amount
    else
      .passed current_balance payment_amount w
        (if pyTruthy w.account_number then pyStr w.account_number
         else DEFAULT_WALLET_ACCOUNT)

/-- The claim-side debit validation, written from the claim wording:
invalid-amount when the amount is non-positive, insufficient-funds (citing
current balance and requested amount) when the amount exceeds the balance,
else success carrying the account number. -/
def validate_debit_claim (current requested : ℚ) (w : WalletDoc)
    (account_number : String) : BalanceCheck :=
  if requested ≤ 0 then .invalidAmount
  else if current < requested then .insufficientFunds current requested
  else .passed current requested w account_number

/-- Embeds `_update_specific_wallet_balance`: the new balance is
`current_balance - payment_amount`; the wallet document is saved with it.
Returns the updated document and the new balance. -/
def update_specific_wallet_balance (w : WalletDoc)
    (current_balance payment_amount : ℚ) : WalletDoc × ℚ :=
  let new_balance := current_balance - payment_amount
  ({ w with balance := some new_balance }, new_balance)

/-- C4: `validate_balance_for_wallet` agrees with the claim-side decision
procedure on every wallet that exists, and on balance 5000 with requested
amount 6000 it returns the insufficient-funds error citing both figures. -/
theorem C4_validate_balance (wallets : List WalletDoc) (amt : Option ℚ)
    (n : String) (w : WalletDoc)
    (hw : wallets.find? (fun x => x.name == n) = some w) :
    validate_balance_for_wallet wallets amt n =
      validate_debit_claim (w.balance.getD 0) (amt.getD 0) w
        (if pyTruthy w.account_number then pyStr w.account_number
         else DEFAULT_WALLET_ACCOUNT) ∧
    validate_balance_for_wallet [⟨"W1", some 5000, some "0123456789", none⟩]
        (some 6000) "W1" = .insufficientFunds 5000 6000 := by
  constructor
  · simp only [validate_balance_for_wallet, validate_debit_claim, hw]
  · rfl

/-- A concrete wallet holding 5000 for the insufficient-funds example. -/
def walletW5000 : WalletDoc :=
  ⟨"W5", some 5000, some "5555555555", none⟩

/-- Witness for C4: the theorem applied to a one-wallet table. -/
theorem C4_validate_balance_witness :
    validate_balance_for_wallet [walletW5000] (some 6000) "W5" =
      validate_debit_claim (walletW5000.balance.getD 0)
        ((some (6000 : ℚ)).getD 0) walletW5000
        (if pyTruthy walletW5000.account_number then
          pyStr walletW5000.account_number
         else DEFAULT_WALLET_ACCOUNT) :=
  (C4_validate_balance [walletW5000] (some 6000) "W5" walletW5000 (by rfl)).1

/-- One debit attempt against a single wallet, exactly as the payment flow
performs it: `validate_balance_for_wallet`, then, only on success,
`_update_specific_wallet_balance` with the validated figures. -/
def debitStep (w : WalletDoc) (amt : Option ℚ) : WalletDoc :=
  match validate_balance_for_wallet [w] amt w.name with
  | .passed current requested _ _ =>
    (update_specific_wallet_balance w current requested).1
  | _ => w

theorem debitStep_nonneg (w : WalletDoc) (amt : Option ℚ)
    (h : 0 ≤ w.balance.getD 0) : 0 ≤ (debitStep w amt).balance.getD 0 := by
  simp only [debitStep, validate_balance_for_wallet, List.find?]
  have hself : (w.name == w.name) = true := by simp
  rw [hself]
  simp only
  by_cases h1 : amt.getD 0 ≤ 0
  · rw [if_pos h1]; exact h
  · rw [if_neg h1]
    by_cases h2 : w.balance.getD 0 < amt.getD 0
    · rw [if_pos h2]; exact h
    · rw [if_neg h2]
      simp only [update_specific_wallet_balance, Option.getD_some]
      push_neg at h2
      linarith

/-- C2: starting from a non-negative balance, any sequence of debit
attempts (each validated by `validate_balance_for_wallet` and applied by
`_update_specific_wallet_balance` only when validation passes) leaves the
balance non-negative. -/
theorem C2_balance_nonnegative (w : WalletDoc) (amts : List (Option ℚ))
    (h : 0 ≤ w.balance.getD 0) :
    0 ≤ (amts.foldl debitStep w).balance.getD 0 := by
  induction amts generalizing w with
  | nil => exact h
  | cons a rest ih => exact ih (debitStep w a) (debitStep_nonneg w a h)

/-- A concrete wallet used to exercise the debit sequence. -/
def walletW1 : WalletDoc :=
  ⟨"W1", some 100, some "0123456789", none⟩

/-- Witness for C2 at a concrete wallet and debit sequence. -/
theorem C2_balance_nonnegative_witness :
    0 ≤ walletW1.balance.getD 0 ∧
    0 ≤ (([some (30 : ℚ), some 50, some 100].foldl debitStep
      walletW1).balance.getD 0) :=
  ⟨by norm_num [walletW1], C2_balance_nonnegative _ _ (by norm_num [walletW1])⟩

/-! ## PIN authorizer (`verify_transaction_pin`, `verify_and_update_pin`) -/

inductive PinVerifyResult where
  | verified
  | walletMissing (wallet_name : String)
  | permissionDenied (role : String)
  | noPinConfigured
  | incorrectPin
  | notProperlyConfigured
  | decryptionFailed
deriving DecidableEq

/-- Embeds `VirtualPayment.verify_transaction_pin`: wallet lookup and role
check, PIN-record lookup, plaintext comparison when the `pin` field is
truthy, else the decryption path. Comparisons are `str(x).strip()`
equality. -/
def verify_transaction_pin (wallets : List WalletDoc) (userRoles : List String)
    (pins : List PaymentPin) (wallet_name : String) (transaction_pin : String) :
    PinVerifyResult :=
  match wallets.find? (fun w => w.name == wallet_name) with
  | none => .walletMissing wallet_name
  | some w =>
    if pyTruthy w.role && !(userRoles.contains (pyStr w.role)) then
      .permissionDenied (pyStr w.role)
    else
      match pins.find? (fun p => p.wallet == wallet_name) with
      | none => .noPinConfigured
      | some pinDoc =>
        if pyTruthy pinDoc.pin then
          if pyStrip transaction_pin = pyStrip (pyStr pinDoc.pin) then .verified
          else .incorrectPin
        else
          match pinDoc.decryptedPin with
          | .raised => .decryptionFailed
          | .value v =>
            if pyTruthy v then
              if pyStrip transaction_pin = pyStrip (pyStr v) then .verified
              else .incorrectPin
            else .notProperlyConfigured

/-- The decryption branch of claim C5 exactly as stated: a decryption
failure gives a decryption error, and otherwise the trimmed values are
compared, with no further case. -/
def pin_decrypt_branch_claim (d : DecryptOutcome) (attempt : String) :
    PinVerifyResult :=
  match d with
  | .raised => .decryptionFailed
  | .value v =>
    if pyStrip attempt = pyStrip (pyStr v) then .verified else .incorrectPin

/-- A wallet with no role restriction whose PIN record stores "1234" in
plaintext. -/
def walletWP : WalletDoc := ⟨"WP", some 1000, some "1111111111", none⟩

def pin1234 : PaymentPin := ⟨"P1", "WP", some "1234", .value none⟩

/-- A PIN record with no plaintext PIN whose decryption call returns an
empty string. -/
def pinEmptyDecrypt : PaymentPin := ⟨"P2", "WP", none, .value (some "")⟩

/-- Counterexample to C5 as stated: with no plaintext PIN and a decryption
call that returns the empty string, the code answers
`notProperlyConfigured`, while the claim's step (d) would compare the
trimmed values (and verify an empty attempt). -/
theorem C5_counterexample :
    verify_transaction_pin [walletWP] [] [pinEmptyDecrypt] "WP" "" =
      .notProperlyConfigured ∧
    pin_decrypt_branch_claim pinEmptyDecrypt.decryptedPin "" = .verified ∧
    PinVerifyResult.notProperlyConfigured ≠ .verified := by
  refine ⟨by rfl, by decide, by simp⟩

/-- C5 (amended): the decision order of `verify_transaction_pin` — role
check first, then PIN-record existence, then plaintext trimmed comparison,
then decryption, which fails with a decryption error when the call raises,
fails with a not-configured error when the decrypted value is empty, and
otherwise compares trimmed values; stored PIN "1234" with padded attempt
" 1234 " verifies. -/
theorem C5_pin_decision_order (wallets : List WalletDoc) (roles : List String)
    (pins : List PaymentPin) (n att : String) (w : WalletDoc)
    (hw : wallets.find? (fun x => x.name == n) = some w) :
    ((pyTruthy w.role && !(roles.contains (pyStr w.role))) = true →
      verify_transaction_pin wallets roles pins n att =
        .permissionDenied (pyStr w.role)) ∧
    ((pyTruthy w.role && !(roles.contains (pyStr w.role))) = false →
      (pins.find? (fun p => p.wallet == n) = none →
        verify_transaction_pin wallets roles pins n att = .noPinConfigured) ∧
      (∀ p, pins.find? (fun p => p.wallet == n) = some p →
        (∀ s, p.pin = some s → s ≠ "" →
          verify_transaction_pin wallets roles pins n att =
            (if pyStrip att = pyStrip s then .verified else .incorrectPin)) ∧
        (pyTruthy p.pin = false →
          (p.decryptedPin = .raised →
            verify_transaction_pin wallets roles pins n att =
              .decryptionFailed) ∧
          (∀ v, p.decryptedPin = .value v → pyTruthy v = true →
            verify_transaction_pin wallets roles pins n att =
              (if pyStrip att = pyStrip (pyStr v) then .verified
               else .incorrectPin)) ∧
          (∀ v, p.decryptedPin = .value v → pyTruthy v = false →
            verify_transaction_pin wallets roles pins n att =
              .notProperlyConfigured)))) ∧
    verify_transaction_pin [walletWP] [] [pin1234] "WP" " 1234 " =
      .verified := by
  refine ⟨?_, ?_, by decide⟩
  · intro hrole
    simp only [verify_transaction_pin, hw, hrole, if_true]
  · intro hrole
    constructor
    · intro hnone
      simp only [verify_transaction_pin, hw, hrole, hnone]
      simp
    · intro p hp
      refine ⟨?_, ?_⟩
      · intro s hs hsne
        have hptr : pyTruthy (some s) = true := by simp [pyTruthy, hsne]
        simp only [verify_transaction_pin, hw, hrole, hp, hs, hptr]
        simp [pyStr]
      · intro hpf
        refine ⟨?_, ?_, ?_⟩
        · intro hdec
          simp only [verify_transaction_pin, hw, hrole, hp, hpf, hdec]
          simp
        · intro v hdec hvt
          simp only [verify_transaction_pin, hw, hrole, hp, hpf, hdec, hvt]
          simp
        · intro v hdec hvf
          simp only [verify_transaction_pin, hw, hrole, hp, hpf, hdec, hvf]
          simp

/-- Witness for C5: the amended theorem applied at concrete inputs gives
the padded-attempt verification and an incorrect-PIN rejection. -/
theorem C5_pin_decision_order_witness :
    verify_transaction_pin [walletWP] [] [pin1234] "WP" " 1234 " =
      .verified ∧
    verify_transaction_pin [walletWP] [] [pin1234] "WP" "9999" =
      .incorrectPin := by
  constructor
  · exact (C5_pin_decision_order [walletWP] [] [pin1234] "WP" " 1234 "
      walletWP (by rfl)).2.2
  · have h := (((C5_pin_decision_order [walletWP] [] [pin1234] "WP" "9999"
      walletWP (by rfl)).2.1 (by rfl)).2 pin1234 (by rfl)).1 "1234"
      (by rfl) (by decide)
    have h2 : (if (pyStrip "9999" = pyStrip "1234") then PinVerifyResult.verified
        else PinVerifyResult.incorrectPin) = PinVerifyResult.incorrectPin := by
      decide
    exact h.trans h2

inductive PinUpdateResult where
  | updated
  | noPinFound
  | currentPinIncorrect
deriving DecidableEq

/-- Embeds `virtual_wallet.verify_and_update_pin`: locate the Payment Pin
record for the wallet, compare `str(pin_doc.pin) != str(current_pin)` with
exact string equality, and on success store the new PIN. Returns the
result and the updated PIN table. -/
def verify_and_update_pin (pins : List PaymentPin)
    (wallet_name current_pin new_pin : String) :
    PinUpdateResult × List PaymentPin :=
  match pins.find? (fun p => p.wallet == wallet_name) with
  | none => (.noPinFound, pins)
  | some pinDoc =>
    if pyStr pinDoc.pin ≠ current_pin then (.currentPinIncorrect, pins)
    else
      (.updated,
        pins.map (fun p =>
          if p.name == pinDoc.name then { p with pin := some new_pin } else p))

/-- C10: `verify_and_update_pin` compares the supplied current PIN to the
stored PIN with exact string equality, without trimming: an attempt that
matches the stored PIN only after stripping whitespace is rejected with the
incorrect-PIN error and the PIN table is left unchanged — unlike
`verify_transaction_pin`, which accepts the same attempt under its trimmed
comparison. -/
theorem C10_update_pin_exact_compare (wallets : List WalletDoc)
    (pins : List PaymentPin) (n cur newPin : String) (w : WalletDoc)
    (p : PaymentPin) (s : String)
    (hwf : wallets.find? (fun x => x.name == n) = some w)
    (hnorole : w.role = none)
    (hp : pins.find? (fun x => x.wallet == n) = some p)
    (hpin : p.pin = some s) (hsne : s ≠ "")
    (hne : cur ≠ s) (htrim : pyStrip cur = pyStrip s) :
    verify_and_update_pin pins n cur newPin = (.currentPinIncorrect, pins) ∧
    verify_transaction_pin wallets [] pins n cur = .verified := by
  constructor
  · have hcmp : pyStr p.pin ≠ cur := by
      rw [hpin]; simpa [pyStr] using fun h => hne h.symm
    simp only [verify_and_update_pin, hp, hcmp, if_pos, if_true]
    simp [hcmp]
  · have hrole : (pyTruthy w.role && !(List.contains ([] : List String) (pyStr w.role))) = false := by
      simp [hnorole, pyTruthy]
    have hptr : pyTruthy (some s) = true := by simp [pyTruthy, hsne]
    simp only [verify_transaction_pin, hwf, hrole, hp, hpin, hptr]
    simp [pyStr, htrim]

/-- Witness for C10: stored PIN "1234", padded attempt " 1234 ". -/
theorem C10_update_pin_exact_compare_witness :
    verify_and_update_pin [pin1234] "WP" " 1234 " "9999" =
      (.currentPinIncorrect, [pin1234]) ∧
    verify_transaction_pin [walletWP] [] [pin1234] "WP" " 1234 " =
      .verified :=
  C10_update_pin_exact_compare [walletWP] [pin1234] "WP" " 1234 " "9999"
    walletWP pin1234 "1234" (by rfl) (by rfl) (by rfl) (by rfl)
    (by decide) (by decide) (by decide)

/-! ## Transfer call with retry (`_process_payment_request`,
`_handle_payment_response`) -/

def MAX_RETRIES : Nat := 3

def RETRY_DELAYS : List Nat := [2, 5, 10]

/-- A parsed transfer-response body: the extracted data payload and the
optional provider error message. -/
structure RespBody where
  data : TransferData
  message : Option String
deriving DecidableEq

/-- What one `requests.post` attempt can produce: an HTTP response (whose
body is `none` when the JSON fails to parse), a timeout, a connection
error, or another request-level exception. -/
inductive AttemptOutcome where
  | resp (status : Nat) (body : Option RespBody)
  | timeoutExc
  | connExc (msg : String)
  | reqExc (msg : String)
deriving DecidableEq

inductive PayResult where
  | transferOk (d : TransferData)
  | invalidRespFormat
  | gatewayError (msg : Option String) (status : Nat)
  | timedOut
  | connectionFailed (msg : String)
  | networkFailed (msg : String)
  | requestValidationFailed (errs : List String)
  | missingFields (fields : List String)
  | maxRetriesExceeded
deriving DecidableEq

inductive HandleRes where
  | done (r : PayResult)
  | retryLater
deriving DecidableEq

/-- Embeds `_handle_payment_response`: HTTP 200 succeeds when the body
parses, an HTTP 502 asks for a retry while attempts remain, and anything
else is a terminal gateway error carrying the provider message (when the
body parsed and held one) and the status code. -/
def handle_payment_response (status : Nat) (body : Option RespBody)
    (attempt : Nat) : HandleRes :=
  if status = 200 then
    match body with
    | some b => .done (.transferOk b.data)
    | none => .done .invalidRespFormat
  else if status = 502 ∧ attempt < MAX_RETRIES - 1 then .retryLater
  else .done (.gatewayError (body.bind (fun b => b.message)) status)

inductive StepRes where
  | finish (r : PayResult)
  | sleepRetry (delay : Nat)
deriving DecidableEq

/-- One iteration of the `for attempt in range(MAX_RETRIES)` loop: the
response goes through `_handle_payment_response`; each of the three
exception handlers retries while attempts remain, sleeping
`RETRY_DELAYS[attempt]`, and otherwise returns its terminal error. -/
def attemptStep (oracle : Nat → AttemptOutcome) (attempt : Nat) : StepRes :=
  match oracle attempt with
  | .resp status body =>
    match handle_payment_response status body attempt with
    | .retryLater => .sleepRetry (RETRY_DELAYS.getD attempt 0)
    | .done r => .finish r
  | .timeoutExc =>
    if attempt < MAX_RETRIES - 1 then .sleepRetry (RETRY_DELAYS.getD attempt 0)
    else .finish .timedOut
  | .connExc m =>
    if attempt < MAX_RETRIES - 1 then .sleepRetry (RETRY_DELAYS.getD attempt 0)
    else .finish (.connectionFailed m)
  | .reqExc m =>
    if attempt < MAX_RETRIES - 1 then .sleepRetry (RETRY_DELAYS.getD attempt 0)
    else .finish (.networkFailed m)

/-- The loop's observable outcome: its returned result, the backoff sleeps
performed, and how many attempts were consumed. -/
structure LoopOut where
  result : PayResult
  sleeps : List Nat
  attemptsUsed : Nat
deriving DecidableEq

def runAttempts (oracle : Nat → AttemptOutcome) : List Nat → LoopOut
  | [] => ⟨.maxRetriesExceeded, [], 0⟩
  | a :: rest =>
    match attemptStep oracle a with
    | .finish r => ⟨r, [], 1⟩
    | .sleepRetry d =>
      let out := runAttempts oracle rest
      ⟨out.result, d :: out.sleeps, out.attemptsUsed + 1⟩

/-- Embeds the retry loop of `_process_payment_request`: attempts 0, 1, 2,
falling through to the max-retries error only when every attempt asked to
retry. -/
def paymentAttemptLoop (oracle : Nat → AttemptOutcome) : LoopOut :=
  runAttempts oracle [0, 1, 2]

/-- The conditions under which the loop in fact retries: any raised
request-level exception, or an HTTP 502 response. -/
def codeRetryTrigger : AttemptOutcome → Bool
  | .resp s _ => s == 502
  | _ => true

/-- The retry triggers named by claim C3: request timeout, connection-level
fault, or HTTP 502 — not other request-level exceptions. -/
def claimRetryTrigger : AttemptOutcome → Bool
  | .resp s _ => s == 502
  | .reqExc _ => false
  | _ => true

theorem handle_retry_iff (s : Nat) (b : Option RespBody) (i : Nat) :
    handle_payment_response s b i = .retryLater ↔
      (s = 502 ∧ i < MAX_RETRIES - 1) := by
  unfold handle_payment_response
  by_cases h200 : s = 200
  · rw [if_pos h200]
    cases b <;> simp [h200, MAX_RETRIES]
  · rw [if_neg h200]
    by_cases hcond : s = 502 ∧ i < MAX_RETRIES - 1
    · rw [if_pos hcond]; simp [hcond]
    · rw [if_neg hcond]; simp [hcond]

theorem attemptStep_sleep_trigger (o : Nat → AttemptOutcome) (i d : Nat)
    (h : attemptStep o i = .sleepRetry d) : codeRetryTrigger (o i) = true := by
  cases ho : o i with
  | resp s b =>
    simp only [attemptStep, ho] at h
    cases hh : handle_payment_response s b i with
    | done r => rw [hh] at h; exact absurd h (by simp)
    | retryLater =>
      have := (handle_retry_iff s b i).mp hh
      simp [codeRetryTrigger, ho, this.1]
  | timeoutExc => simp [codeRetryTrigger, ho]
  | connExc m => simp [codeRetryTrigger, ho]
  | reqExc m => simp [codeRetryTrigger, ho]

theorem attemptStep_sleep_resp_502 (o : Nat → AttemptOutcome) (i d : Nat)
    (s : Nat) (b : Option RespBody) (h : attemptStep o i = .sleepRetry d)
    (ho : o i = .resp s b) : s = 502 := by
  simp only [attemptStep, ho] at h
  cases hh : handle_payment_response s b i with
  | done r => rw [hh] at h; exact absurd h (by simp)
  | retryLater => exact ((handle_retry_iff s b i).mp hh).1

theorem attemptStep_sleep_delay (o : Nat → AttemptOutcome) (i d : Nat)
    (h : attemptStep o i = .sleepRetry d) : d = RETRY_DELAYS.getD i 0 := by
  cases ho : o i with
  | resp s b =>
    simp only [attemptStep, ho] at h
    cases hh : handle_payment_response s b i with
    | done r => rw [hh] at h; exact absurd h (by simp)
    | retryLater => rw [hh] at h; simpa using h.symm
  | timeoutExc =>
    simp only [attemptStep, ho] at h
    by_cases hi : i < MAX_RETRIES - 1
    · rw [if_pos hi] at h; simpa using h.symm
    · rw [if_neg hi] at h; exact absurd h (by simp)
  | connExc m =>
    simp only [attemptStep, ho] at h
    by_cases hi : i < MAX_RETRIES - 1
    · rw [if_pos hi] at h; simpa using h.symm
    · rw [if_neg hi] at h; exact absurd h (by simp)
  | reqExc m =>
    simp only [attemptStep, ho] at h
    by_cases hi : i < MAX_RETRIES - 1
    · rw [if_pos hi] at h; simpa using h.symm
    · rw [if_neg hi] at h; exact absurd h (by simp)

theorem attemptStep_two_ne_sleep (o : Nat → AttemptOutcome) (d : Nat) :
    attemptStep o 2 ≠ .sleepRetry d := by
  intro h
  cases ho : o 2 with
  | resp s b =>
    simp only [attemptStep, ho] at h
    cases hh : handle_payment_response s b 2 with
    | done r => rw [hh] at h; exact absurd h (by simp)
    | retryLater =>
      have := (handle_retry_iff s b 2).mp hh
      simp [MAX_RETRIES] at this
  | timeoutExc => simp [attemptStep, ho, MAX_RETRIES] at h
  | connExc m => simp [attemptStep, ho, MAX_RETRIES] at h
  | reqExc m => simp [attemptStep, ho, MAX_RETRIES] at h

theorem attemptStep_finish_ne_max (o : Nat → AttemptOutcome) (i : Nat)
    (r : PayResult) (h : attemptStep o i = .finish r) :
    r ≠ .maxRetriesExceeded := by
  cases ho : o i with
  | resp s b =>
    simp only [attemptStep, ho] at h
    cases hh : handle_payment_response s b i with
    | retryLater => rw [hh] at h; exact absurd h (by simp)
    | done r2 =>
      rw [hh] at h
      have hr : r2 = r := by simpa using h
      subst hr
      revert hh
      unfold handle_payment_response
      by_cases h200 : s = 200
      · rw [if_pos h200]
        cases b <;> (intro hh; simp at hh; rw [← hh]; simp)
      · rw [if_neg h200]
        by_cases hcond : s = 502 ∧ i < MAX_RETRIES - 1
        · rw [if_pos hcond]; intro hh; exact absurd hh (by simp)
        · rw [if_neg hcond]; intro hh; simp at hh; rw [← hh]; simp
  | timeoutExc =>
    simp only [attemptStep, ho] at h
    by_cases hi : i < MAX_RETRIES - 1
    · rw [if_pos hi] at h; exact absurd h (by simp)
    · rw [if_neg hi] at h
      have : PayResult.timedOut = r := by simpa using h
      rw [← this]; simp
  | connExc m =>
    simp only [attemptStep, ho] at h
    by_cases hi : i < MAX_RETRIES - 1
    · rw [if_pos hi] at h; exact absurd h (by simp)
    · rw [if_neg hi] at h
      have : PayResult.connectionFailed m = r := by simpa using h
      rw [← this]; simp
  | reqExc m =>
    simp only [attemptStep, ho] at h
    by_cases hi : i < MAX_RETRIES - 1
    · rw [if_pos hi] at h; exact absurd h (by simp)
    · rw [if_neg hi] at h
      have : PayResult.networkFailed m = r := by simpa using h
      rw [← this]; simp

/-- The three possible execution shapes of the loop. -/
theorem paymentAttemptLoop_shape (o : Nat → AttemptOutcome) :
    (∃ r, attemptStep o 0 = .finish r ∧ paymentAttemptLoop o = ⟨r, [], 1⟩) ∨
    (∃ d0 r, attemptStep o 0 = .sleepRetry d0 ∧
      attemptStep o 1 = .finish r ∧ paymentAttemptLoop o = ⟨r, [d0], 2⟩) ∨
    (∃ d0 d1 r, attemptStep o 0 = .sleepRetry d0 ∧
      attemptStep o 1 = .sleepRetry d1 ∧ attemptStep o 2 = .finish r ∧
      paymentAttemptLoop o = ⟨r, [d0, d1], 3⟩) := by
  cases h0 : attemptStep o 0 with
  | finish r =>
    exact Or.inl ⟨r, rfl, by simp [paymentAttemptLoop, runAttempts, h0]⟩
  | sleepRetry d0 =>
    cases h1 : attemptStep o 1 with
    | finish r =>
      exact Or.inr (Or.inl ⟨d0, r, rfl, rfl,
        by simp [paymentAttemptLoop, runAttempts, h0, h1]⟩)
    | sleepRetry d1 =>
      cases h2 : attemptStep o 2 with
      | finish r =>
        exact Or.inr (Or.inr ⟨d0, d1, r, rfl, rfl, rfl,
          by simp [paymentAttemptLoop, runAttempts, h0, h1, h2]⟩)
      | sleepRetry d2 => exact absurd h2 (attemptStep_two_ne_sleep o d2)

/-- A concrete successful-transfer payload. -/
def refTransferData : TransferData :=
  ⟨some "TX123", some 100, some "GTB", some "8169246969", some "JOHN DOE",
    some "9000136910", some "Payment Transfer"⟩

/-- Attempts 1 and 2 answer HTTP 502; attempt 3 answers HTTP 200. -/
def oracle502Then200 : Nat → AttemptOutcome := fun n =>
  if n < 2 then .resp 502 none else .resp 200 (some ⟨refTransferData, none⟩)

/-- Attempt 1 raises a request-level exception that is neither a timeout
nor a connection fault; attempt 2 answers HTTP 200. -/
def oracleReqExcThen200 : Nat → AttemptOutcome := fun n =>
  if n = 0 then .reqExc "boom" else .resp 200 (some ⟨refTransferData, none⟩)

/-- Counterexample to C3 as stated: the loop also retries on a generic
request-level exception (`requests.RequestException`) that is neither a
timeout, nor a connection-level fault, nor an HTTP 502 response. -/
theorem C3_counterexample :
    ¬ (∀ (o : Nat → AttemptOutcome) (i : Nat),
        i + 1 < (paymentAttemptLoop o).attemptsUsed →
        claimRetryTrigger (o i) = true) := by
  intro h
  have h2 := h oracleReqExcThen200 0 (by decide)
  exact absurd h2 (by decide)

/-- C3 (amended): the transfer loop makes at most 3 attempts total; it
retries only on a request timeout, a connection-level fault, any other
request-level exception, or an HTTP 502 response; its sleeps follow the
fixed backoff schedule 2s, 5s, 10s indexed by attempt number; a
max-retries result can only come with all attempts used; any non-502
response (other than a retried one) is terminal; and a 502 on attempts 1
and 2 followed by a 200 on attempt 3 yields overall success with exactly
two sleeps of 2s and 5s. -/
theorem C3_retry_policy (o : Nat → AttemptOutcome) :
    (1 ≤ (paymentAttemptLoop o).attemptsUsed ∧
      (paymentAttemptLoop o).attemptsUsed ≤ 3) ∧
    (∀ i, i + 1 < (paymentAttemptLoop o).attemptsUsed →
      codeRetryTrigger (o i) = true) ∧
    ((paymentAttemptLoop o).sleeps =
      (List.range ((paymentAttemptLoop o).attemptsUsed - 1)).map
        (fun i => RETRY_DELAYS.getD i 0)) ∧
    (∀ i s b, i < (paymentAttemptLoop o).attemptsUsed → o i = .resp s b →
      s ≠ 502 → (paymentAttemptLoop o).attemptsUsed = i + 1) ∧
    ((paymentAttemptLoop o).result = .maxRetriesExceeded →
      (paymentAttemptLoop o).attemptsUsed = 3) ∧
    paymentAttemptLoop oracle502Then200 =
      ⟨.transferOk refTransferData, [2, 5], 3⟩ := by
  obtain ⟨r, h0, hL⟩ | ⟨d0, r, h0, h1, hL⟩ | ⟨d0, d1, r, h0, h1, h2, hL⟩ :=
    paymentAttemptLoop_shape o
  · refine ⟨by simp [hL], ?_, by simp [hL], ?_, ?_, by decide⟩
    · intro i hi
      rw [hL] at hi
      simp at hi
    · intro i s b hi ho hs
      rw [hL] at hi ⊢
      simp at hi ⊢
      omega
    · intro hres
      rw [hL] at hres
      simp at hres
      exact absurd hres (attemptStep_finish_ne_max o 0 r h0)
  · refine ⟨by simp [hL], ?_, ?_, ?_, ?_, by decide⟩
    · intro i hi
      rw [hL] at hi
      simp at hi
      have : i = 0 := by omega
      subst this
      exact attemptStep_sleep_trigger o 0 d0 h0
    · rw [hL]
      have hd0 := attemptStep_sleep_delay o 0 d0 h0
      simp [hd0, List.range_succ]
    · intro i s b hi ho hs
      rw [hL] at hi ⊢
      simp at hi ⊢
      cases i with
      | zero => exact absurd (attemptStep_sleep_resp_502 o 0 d0 s b h0 ho) hs
      | succ j => omega
    · intro hres
      rw [hL] at hres
      simp at hres
      exact absurd hres (attemptStep_finish_ne_max o 1 r h1)
  · refine ⟨by simp [hL], ?_, ?_, ?_, ?_, by decide⟩
    · intro i hi
      rw [hL] at hi
      simp at hi
      cases i with
      | zero => exact attemptStep_sleep_trigger o 0 d0 h0
      | succ j =>
        have hj : j = 0 := by omega
        subst hj
        exact attemptStep_sleep_trigger o 1 d1 h1
    · rw [hL]
      have hd0 := attemptStep_sleep_delay o 0 d0 h0
      have hd1 := attemptStep_sleep_delay o 1 d1 h1
      simp [hd0, hd1, List.range_succ]
    · intro i s b hi ho hs
      rw [hL] at hi ⊢
      simp at hi ⊢
      cases i with
      | zero => exact absurd (attemptStep_sleep_resp_502 o 0 d0 s b h0 ho) hs
      | succ j =>
        cases j with
        | zero => exact absurd (attemptStep_sleep_resp_502 o 1 d1 s b h1 ho) hs
        | succ k => omega
    · intro hres
      rw [hL] at hres
      simp at hres
      exact absurd hres (attemptStep_finish_ne_max o 2 r h2)

/-- Witness for C3: the amended theorem applied at the 502-502-200 oracle
gives the retry-trigger fact for the first attempt and terminality of the
200 on the third attempt. -/
theorem C3_retry_policy_witness :
    codeRetryTrigger (oracle502Then200 0) = true ∧
    (paymentAttemptLoop oracle502Then200).attemptsUsed = 2 + 1 :=
  ⟨(C3_retry_policy oracle502Then200).2.1 0 (by decide),
   (C3_retry_policy oracle502Then200).2.2.2.1 2 200
     (some ⟨refTransferData, none⟩) (by decide) (by decide) (by decide)⟩

/-- Embeds `_process_payment_request` around the loop: resolve the
destination bank code (document field first, else `_get_bank_code` with
the exception swallowed), default the source account, build and validate
the request data, then run the retry loop. The bearer token only feeds the
request headers and does not alter control flow. -/
def process_payment_request (banks : List BankRecord) (self : PaymentDoc)
    (oracle : Nat → AttemptOutcome) : LoopOut :=
  let dbc :=
    if pyTruthy self.destination_bank_code = false ∧
        pyTruthy self.destination_bank = true then
      match get_bank_code banks self.destination_bank with
      | .ok c => some c
      | .error _ => self.destination_bank_code
    else self.destination_bank_code
  let source_account :=
    if pyTruthy self.source_account_number then pyStr self.source_account_number
    else "9000136910"
  let amountInvalid : Bool :=
    match self.amount with
    | none => true
    | some a => decide (a ≤ 0)
  let acctLenBad : Bool :=
    if pyTruthy self.destination_account_number then
      decide ((pyStr self.destination_account_number).length ≠ 10)
    else true
  let errs :=
    (if pyTruthy dbc = false then
      ["destination_bank_code is missing or could not be retrieved"] else []) ++
    (if pyTruthy self.destination_account_number = false then
      ["destination_account_number is missing"] else []) ++
    (if amountInvalid then ["amount is invalid"] else []) ++
    (if acctLenBad then
      ["destination_account_number should be 10 digits"] else [])
  if errs ≠ [] then ⟨.requestValidationFailed errs, [], 0⟩
  else
    let missing :=
      (if pyTruthy dbc = false then ["destinationBankCode"] else []) ++
      (if pyTruthy self.destination_account_number = false then
        ["destinationAccountNumber"] else []) ++
      (if amountInvalid then ["amount"] else []) ++
      (if source_account = "" then ["sourceAccountNumber"] else [])
    if missing ≠ [] then ⟨.missingFields missing, [], 0⟩
    else paymentAttemptLoop oracle

/-! ## Transaction ledger (`transaction_history.py`) -/

/-- A `Transaction History` document. -/
structure TransactionRecord where
  transaction_reference : Option String
  virtual_payment : Option String
  status : String
  transaction_date : String
  amount : ℚ
  destination_bank : String
  destination_account_number : String
  destination_account_name : String
  source_account_number : String
  narration : String
deriving DecidableEq

/-- Embeds `TransactionHistory.validate` on the record about to be
inserted: the reference must be truthy and the amount positive, else the
insert raises. -/
def transaction_history_valid (r : TransactionRecord) : Bool :=
  pyTruthy r.transaction_reference && decide (0 < r.amount)

/-- The record `create_transaction_record` builds before inserting:
`Pending` status, the current timestamp, and the fields of the transfer
payload with their source defaults. -/
def freshTransactionRecord (data : TransferData) (vp : Option String)
    (nowTime : String) : TransactionRecord :=
  { transaction_reference := data.transactionReference
    virtual_payment := vp
    status := "Pending"
    transaction_date := nowTime
    amount := data.amount.getD 0
    destination_bank := data.destinationBankName.getD ""
    destination_account_number := data.destinationAccountNumber.getD ""
    destination_account_name := data.destinationAccountName.getD ""
    source_account_number := data.sourceAccountNumber.getD ""
    narration := data.narration.getD "" }

/-- Embeds `TransactionHistory.create_transaction_record`: check
`frappe.db.exists` on the transaction reference and return the existing
record when found, else build and insert a fresh `Pending` record
(returning `none` when its validation raises). Returns the
created-or-found record and the updated table. -/
def create_transaction_record (table : List TransactionRecord)
    (nowTime : String) (data : TransferData)
    (virtual_payment_name : Option String) :
    Option TransactionRecord × List TransactionRecord :=
  match table.find?
      (fun r => r.transaction_reference == data.transactionReference) with
  | some existing => (some existing, table)
  | none =>
    let fresh := freshTransactionRecord data virtual_payment_name nowTime
    if transaction_history_valid fresh then (some fresh, table ++ [fresh])
    else (none, table)

/-- C6: `create_transaction_record` is idempotent in the transaction
reference — calling it a second time with the same payload returns the
record produced by the first call and leaves the table unchanged, so no
duplicate is created. -/
theorem C6_create_transaction_idempotent (table : List TransactionRecord)
    (t1 t2 : String) (data : TransferData) (vp : Option String) :
    (create_transaction_record
        (create_transaction_record table t1 data vp).2 t2 data vp).1 =
      (create_transaction_record table t1 data vp).1 ∧
    (create_transaction_record
        (create_transaction_record table t1 data vp).2 t2 data vp).2 =
      (create_transaction_record table t1 data vp).2 := by
  cases hf : table.find?
      (fun r => r.transaction_reference == data.transactionReference) with
  | some existing =>
    constructor <;> simp only [create_transaction_record, hf]
  | none =>
    by_cases hv : transaction_history_valid
        (freshTransactionRecord data vp t1) = true
    · have hstep : create_transaction_record table t1 data vp =
          (some (freshTransactionRecord data vp t1),
            table ++ [freshTransactionRecord data vp t1]) := by
        simp only [create_transaction_record, hf, hv, if_true]
      rw [hstep]
      have hfind2 : (table ++ [freshTransactionRecord data vp t1]).find?
            (fun r => r.transaction_reference == data.transactionReference) =
          some (freshTransactionRecord data vp t1) := by
        rw [List.find?_append, hf]
        simp [List.find?, freshTransactionRecord]
      constructor <;> simp only [create_transaction_record, hfind2]
    · have hstep : create_transaction_record table t1 data vp =
          (none, table) := by
        simp only [create_transaction_record, hf]
        rw [if_neg (by simpa using hv)]
      rw [hstep]
      have hv2 : transaction_history_valid
          (freshTransactionRecord data vp t2) = false := by
        have : transaction_history_valid (freshTransactionRecord data vp t1) =
            transaction_history_valid (freshTransactionRecord data vp t2) := by
          simp [transaction_history_valid, freshTransactionRecord]
        rw [← this]
        simpa using hv
      constructor <;>
        · simp only [create_transaction_record, hf]
          rw [if_neg (by simp [hv2])]

/-! ## Account verification (`process_bank_verification`,
`_verify_bank_account`) -/

/-- The parsed body of a bank-resolve response: the `data` object's
`accountName` and `bankName` entries. -/
structure VerifyBody where
  accountName : Option String
  bankName : Option String
deriving DecidableEq

/-- What the single `requests.get` of `_verify_bank_account` can produce:
a response (body `none` when the JSON fails to parse) or a request-level
exception. -/
inductive VerifyOutcome where
  | resp (status : Nat) (body : Option VerifyBody)
  | netExc (msg : String)
deriving DecidableEq

inductive VerifResult where
  | tokenMissing
  | bankInfoError
  | invalidAccountFormat
  | emptyAccountName
  | failedWithStatus (status : Nat)
  | networkFailure
  | parseFailure
  | verifiedAccount (account_name bank_name : String)
deriving DecidableEq

/-- Embeds `_verify_bank_account`: on HTTP 200, read
`data.get('accountName','').strip()` and fail when blank; other statuses
fail carrying the status code; request exceptions map to a network
failure; a 200 whose JSON does not parse raises into the caller's generic
handler. -/
def verify_bank_account (outcome : VerifyOutcome) : VerifResult :=
  match outcome with
  | .netExc _ => .networkFailure
  | .resp status body =>
    if status = 200 then
      match body with
      | none => .parseFailure
      | some b =>
        let account_name := pyStrip (b.accountName.getD "")
        let bank_name := pyStrip (b.bankName.getD "")
        if account_name = "" then .emptyAccountName
        else .verifiedAccount account_name bank_name
    else .failedWithStatus status

/-- Embeds `process_bank_verification`: resolve the bearer token, resolve
the bank code, then reject account numbers shorter than 10 characters —
all before the external lookup. Returns the result and whether the lookup
request was issued. The initial clearing of `destination_account_name` and
the realtime notification are document-store side effects outside this
model; the `hasattr` checks hold for every document instance since the
fields are schema-defined. -/
def process_bank_verification (envLive envPayable confLive settingsLive :
    Option String) (banks : List BankRecord) (self : PaymentDoc)
    (outcome : VerifyOutcome) : VerifResult × Bool :=
  match get_bearer_token envLive envPayable confLive settingsLive with
  | none => (.tokenMissing, false)
  | some _ =>
    match get_bank_code banks self.destination_bank with
    | .error _ => (.bankInfoError, false)
    | .ok _ =>
      let account_number := pyStr self.destination_account_number
      if account_number.length < 10 then (.invalidAccountFormat, false)
      else (verify_bank_account outcome, true)

/-- C9: account verification rejects any destination account number
shorter than 10 characters before issuing the external lookup (no lookup
happens for such numbers under any oracle, and with a token and bank code
available the result is the invalid-format error); on HTTP 200 with a
blank-after-trim `accountName` it returns an error rather than success;
and non-200 responses yield a failure carrying the status code. -/
theorem C9_account_verification (a b c d : Option String)
    (banks : List BankRecord) (self : PaymentDoc) (outcome : VerifyOutcome) :
    ((pyStr self.destination_account_number).length < 10 →
      (process_bank_verification a b c d banks self outcome).2 = false) ∧
    (get_bearer_token a b c d ≠ none →
      (∀ e, get_bank_code banks self.destination_bank ≠ .error e) →
      (pyStr self.destination_account_number).length < 10 →
      process_bank_verification a b c d banks self outcome =
        (.invalidAccountFormat, false)) ∧
    (∀ vb, pyStrip (vb.accountName.getD "") = "" →
      verify_bank_account (.resp 200 (some vb)) = .emptyAccountName) ∧
    (∀ s vb, s ≠ 200 →
      verify_bank_account (.resp s vb) = .failedWithStatus s) := by
  refine ⟨?_, ?_, ?_, ?_⟩
  · intro hlen
    simp only [process_bank_verification]
    cases get_bearer_token a b c d with
    | none => rfl
    | some t =>
      cases get_bank_code banks self.destination_bank with
      | error e => rfl
      | ok code => simp [hlen]
  · intro htok hbank hlen
    simp only [process_bank_verification]
    cases htv : get_bearer_token a b c d with
    | none => exact absurd htv htok
    | some t =>
      cases hbv : get_bank_code banks self.destination_bank with
      | error e => exact absurd hbv (hbank e)
      | ok code => simp [hlen]
  · intro vb hblank
    simp [verify_bank_account, hblank]
  · intro s vb hs
    simp [verify_bank_account, hs]

/-- A document holding the 8-character account number from the claim. -/
def shortAccountDoc : PaymentDoc :=
  ⟨"VP1", some 100, some "GTB", none, some "81692469", none, none⟩

/-- A bank table holding one bank with a usable code. -/
def banksGTB : List BankRecord :=
  [⟨"GTB", some "GTB", some "100004"⟩]

/-- Witness for C9: the 8-character account number "81692469" is rejected
with no lookup issued, with a token present and the bank code resolvable. -/
theorem C9_account_verification_witness :
    process_bank_verification (some "tok") none none none banksGTB
        shortAccountDoc (.netExc "never sent") =
      (.invalidAccountFormat, false) ∧
    verify_bank_account (.resp 503 none) = .failedWithStatus 503 :=
  ⟨(C9_account_verification (some "tok") none none none banksGTB
      shortAccountDoc (.netExc "never sent")).2.1 (by decide)
      (by
        intro e he
        have hok : get_bank_code banksGTB shortAccountDoc.destination_bank =
            .ok "100004" := rfl
        rw [hok] at he
        exact absurd he (by simp)) (by decide),
   (C9_account_verification (some "tok") none none none banksGTB
      shortAccountDoc (.netExc "never sent")).2.2.2 503 none (by decide)⟩

/-! ## Payment orchestrator (`make_virtual_payment`) -/

/-- Everything `make_virtual_payment` reads or writes outside the
document's own fields: credential sources, the document tables, the
caller's roles, and the transfer-call oracle. -/
structure Env where
  envLiveToken : Option String
  envPayableLiveToken : Option String
  confLiveToken : Option String
  settingsLiveToken : Option String
  banks : List BankRecord
  wallets : List WalletDoc
  pins : List PaymentPin
  userRoles : List String
  transferOracle : Nat → AttemptOutcome
  transactions : List TransactionRecord
  nowTime : String

inductive MakeResult where
  | paid (new_balance : ℚ) (d : TransferData) (wallet_used : String)
  | noWalletsFound
  | pinRequired
  | pinRejected (r : PinVerifyResult)
  | balanceRejected (r : BalanceCheck)
  | tokenMissing
  | bankCodeMissing
  | transferFailed (r : PayResult)
deriving DecidableEq

def MakeResult.isPaid : MakeResult → Bool
  | .paid _ _ _ => true
  | _ => false

/-- Saving the wallet document writes its new balance back to the table. -/
def update_wallet_list (wallets : List WalletDoc) (wname : String)
    (newBal : ℚ) : List WalletDoc :=
  wallets.map (fun w =>
    if w.name == wname then { w with balance := some newBal } else w)

/-- Embeds `make_virtual_payment`: pick the wallet (argument, else first
listed), require a PIN, verify it, validate the balance, resolve the
bearer token and the bank code, run `_process_payment_request`, and only
on its success deduct the balance and record the transaction (keyed by the
transaction reference when the response carries one). -/
def make_virtual_payment (env : Env) (self : PaymentDoc)
    (transaction_pin : Option String) (virtual_wallet : Option String) :
    MakeResult × Env :=
  let payment_wallet? :=
    if pyTruthy virtual_wallet then virtual_wallet
    else env.wallets.head?.map (fun w => w.name)
  match payment_wallet? with
  | none => (.noWalletsFound, env)
  | some payment_wallet =>
    if pyTruthy transaction_pin = false then (.pinRequired, env)
    else
      let pinRes := verify_transaction_pin env.wallets env.userRoles env.pins
        payment_wallet (pyStr transaction_pin)
      if pinRes ≠ .verified then (.pinRejected pinRes, env)
      else
        match validate_balance_for_wallet env.wallets self.amount
            payment_wallet with
        | .passed current_balance payment_amount wallet_doc _acct =>
          (match get_bearer_token env.envLiveToken env.envPayableLiveToken
              env.confLiveToken env.settingsLiveToken with
            | none => (.tokenMissing, env)
            | some _ =>
              match get_bank_code env.banks self.destination_bank with
              | .error _ => (.bankCodeMissing, env)
              | .ok _ =>
                let payOut := process_payment_request env.banks self
                  env.transferOracle
                match payOut.result with
                | .transferOk d =>
                  let updated := update_specific_wallet_balance wallet_doc
                    current_balance payment_amount
                  let env2 := { env with
                    wallets := update_wallet_list env.wallets wallet_doc.name
                      updated.2 }
                  if pyTruthy d.transactionReference then
                    (.paid updated.2 d payment_wallet,
                      { env2 with transactions :=
                        (create_transaction_record env2.transactions
                          env2.nowTime d (some self.name)).2 })
                  else (.paid updated.2 d payment_wallet, env2)
                | r => (.transferFailed r, env))
        | v => (.balanceRejected v, env)

/-- C1: the wallet table is mutated only by a run in which the transfer
request itself reported success — every execution in which PIN
verification, balance validation, token resolution, bank-code resolution,
or the transfer request fails returns with the wallet balances unchanged,
so a balance is never decreased without a successful transfer response. -/
theorem C1_no_debit_without_transfer_success (env : Env) (self : PaymentDoc)
    (tp vw : Option String)
    (hch : (make_virtual_payment env self tp vw).2.wallets ≠ env.wallets) :
    (make_virtual_payment env self tp vw).1.isPaid = true ∧
    ∃ d, (process_payment_request env.banks self env.transferOracle).result =
      .transferOk d := by
  revert hch
  simp only [make_virtual_payment]
  split
  · intro hch; exact absurd rfl hch
  · split
    · intro hch; exact absurd rfl hch
    · split
      · intro hch; exact absurd rfl hch
      · split
        · split
          · intro hch; exact absurd rfl hch
          · split
            · intro hch; exact absurd rfl hch
            · split
              · rename_i d heq
                intro hch
                refine ⟨?_, d, heq⟩
                split <;> simp [MakeResult.isPaid]
              · intro hch; exact absurd rfl hch
        · intro hch; exact absurd rfl hch

/-- A funded wallet for the witness run. -/
def walletRich : WalletDoc := ⟨"W1", some 5000, some "1234567890", none⟩

/-- Its plaintext PIN record. -/
def pinRich : PaymentPin := ⟨"P1", "W1", some "1234", .value none⟩

/-- A fully filled payment document. -/
def selfPay : PaymentDoc :=
  ⟨"VP1", some 100, some "GTB", none, some "8169246969", none, none⟩

/-- An environment in which the whole payment pipeline succeeds. -/
def envPay : Env :=
  { envLiveToken := some "tok"
    envPayableLiveToken := none
    confLiveToken := none
    settingsLiveToken := none
    banks := banksGTB
    wallets := [walletRich]
    pins := [pinRich]
    userRoles := []
    transferOracle := fun _ => .resp 200 (some ⟨refTransferData, none⟩)
    transactions := []
    nowTime := "2026-10-12 00:00:00" }

/-- The environment after the successful witness run: the balance is
debited and the transaction is recorded. -/
def envPayAfter : Env :=
  { envPay with
    wallets := [⟨"W1", some ((5000 : ℚ) - 100), some "1234567890", none⟩]
    transactions :=
      [freshTransactionRecord refTransferData (some "VP1")
        "2026-10-12 00:00:00"] }

/-- Witness for C1: a run whose wallet table does change — the theorem
yields that the run paid out (after a successful transfer response). -/
theorem C1_no_debit_without_transfer_success_witness :
    (make_virtual_payment envPay selfPay (some "1234") (some "W1")).2.wallets ≠
      envPay.wallets ∧
    (make_virtual_payment envPay selfPay (some "1234")
      (some "W1")).1.isPaid = true := by
  have hrun : make_virtual_payment envPay selfPay (some "1234") (some "W1") =
      (.paid ((5000 : ℚ) - 100) refTransferData "W1", envPayAfter) := by rfl
  have hne : (make_virtual_payment envPay selfPay (some "1234")
      (some "W1")).2.wallets ≠ envPay.wallets := by
    rw [hrun]
    simp only [envPayAfter, envPay, walletRich]
    intro hcontra
    simp at hcontra
  exact ⟨hne, (C1_no_debit_without_transfer_success envPay selfPay
    (some "1234") (some "W1") hne).1⟩

end Purpledove
